import Mathlib

/-!
Verification development for the electron-faker-angular repository.

The definitions below are a shallow embedding of:
- src/app/core/interceptors/auth.interceptor.ts (both the bearer-token
  variant and the HttpOnly-cookie variant bundled in that file),
- the two TokenService variants (localStorage bearer tokens, and the
  cookie-based in-memory auth state),
- the cookie AuthService's checkAuthStatus subscription callbacks,
- src/app/core/services/cart.service.ts.

RxJS observables are embedded as an explicit state machine: each
synchronous handler of the source (handle401Error on a 401 event, the
switchMap callback on refresh success, the catchError callback on refresh
failure) becomes a state-transition function, and the transport calls a
handler issues are recorded in an `issued` list in the order the
subscriptions fire.  JavaScript numbers are modelled as Int (the cart and
token arithmetic uses no fractional-precision-sensitive operation),
`string | null` as Option String, and `url.includes(sub)` as a substring
test on the character list of the URL.
-/

/-- Substring test on character lists: true iff `pat` occurs contiguously
in `s`.  Embeds JavaScript's `String.prototype.includes`. -/
def containsSub (s pat : List Char) : Bool :=
  match s with
  | [] => pat.isEmpty
  | _ :: tail => pat.isPrefixOf s || containsSub tail pat

/-- JavaScript `s.includes(pat)` for Lean strings. -/
def strContains (s pat : String) : Bool :=
  containsSub s.data pat.data

/-- An outgoing HTTP request as the interceptor sees it: its URL and the
Authorization header, if one has been attached (HttpRequest.clone with
setHeaders in the source). -/
structure HttpReq where
  url : String
  authHeader : Option String
deriving Repr, DecidableEq

/-- Bearer-token TokenService state (token.service.ts, localStorage
variant): the three localStorage slots access_token, refresh_token,
token_expiry plus the isAuthenticated signal.  The expiry slot stores the
computed epoch-millisecond expiry time. -/
structure TokenStore where
  access : Option String
  refresh : Option String
  expiry : Option Int
  isAuthenticated : Bool
deriving Repr, DecidableEq

/-- TokenService.setTokens: store both tokens, record the expiry time when
expiresIn is given (Date.now() + expiresIn * 1000), set the
isAuthenticated signal.  `now` stands for Date.now(). -/
def TokenStore.setTokens (s : TokenStore) (accessToken refreshToken : String)
    (expiresIn : Option Int) (now : Int) : TokenStore :=
  { access := some accessToken
    refresh := some refreshToken
    expiry := match expiresIn with
      | some e => some (now + e * 1000)
      | none => s.expiry
    isAuthenticated := true }

/-- TokenService.getAccessToken: read the access_token slot. -/
def TokenStore.getAccessToken (s : TokenStore) : Option String :=
  s.access

/-- TokenService.isTokenExpired: no stored expiry means not expired;
otherwise expired once Date.now() reaches expiry minus a 30s buffer. -/
def TokenStore.isTokenExpired (s : TokenStore) (now : Int) : Bool :=
  match s.expiry with
  | none => false
  | some t => decide (t - 30 * 1000 ≤ now)

/-- TokenService.hasValidToken: a non-null access token that is not
expired. -/
def TokenStore.hasValidToken (s : TokenStore) (now : Int) : Bool :=
  !s.access.isNone && !(s.isTokenExpired now)

/-- TokenService.clearTokens: remove all three localStorage slots and
reset the isAuthenticated signal. -/
def TokenStore.clearTokens (s : TokenStore) : TokenStore :=
  { access := none, refresh := none, expiry := none, isAuthenticated := false }

/-- Cookie-variant TokenService state (the AuthSession of the spec): the
in-memory userInfo object and the isAuthenticated signal.  The user
profile is kept abstract as a Nat. -/
structure AuthSession where
  userInfo : Option Nat
  isAuthenticated : Bool
deriving Repr, DecidableEq

/-- TokenService.setAuthenticated (cookie variant): set only the
isAuthenticated signal. -/
def AuthSession.setAuthenticated (s : AuthSession) (authenticated : Bool) : AuthSession :=
  { s with isAuthenticated := authenticated }

/-- TokenService.setUserInfo (cookie variant): store the user object and
set isAuthenticated to true. -/
def AuthSession.setUserInfo (s : AuthSession) (user : Nat) : AuthSession :=
  { userInfo := some user, isAuthenticated := true }

/-- TokenService.clearAuthState (cookie variant): drop the user object and
reset isAuthenticated. -/
def AuthSession.clearAuthState (s : AuthSession) : AuthSession :=
  { userInfo := none, isAuthenticated := false }

/-- AuthService.checkAuthStatus subscription callbacks (cookie variant):
on a successful /auth/me response carrying a user, setUserInfo; on the
error path, setAuthenticated(false).  `result` is the outcome of the
probe. -/
def checkAuthStatusStep (s : AuthSession) (result : Option Nat) : AuthSession :=
  match result with
  | some user => s.setUserInfo user
  | none => s.setAuthenticated false

/-- EXCLUDED_URLS of the bearer interceptor: requests whose URL contains
one of these never get the Authorization header attached. -/
def EXCLUDED_URLS : List String :=
  ["/auth/login", "/auth/register", "/auth/refresh", "fakestoreapi.com"]

/-- AuthInterceptor.shouldAddToken: true iff no excluded URL fragment
occurs in the request URL. -/
def shouldAddToken (r : HttpReq) : Bool :=
  !(EXCLUDED_URLS.any fun u => strContains r.url u)

/-- AuthInterceptor.addAuthToken: clone the request with an
Authorization Bearer header when an access token is stored, otherwise
return the request unchanged. -/
def addAuthToken (store : TokenStore) (r : HttpReq) : HttpReq :=
  match store.getAccessToken with
  | some t => { r with authHeader := some ("Bearer " ++ t) }
  | none => r

/-- The outgoing half of AuthInterceptor.intercept: attach the token when
shouldAddToken holds, then hand the (possibly cloned) request to
next.handle.  The interceptor never rejects a request at this stage; the
returned request is exactly what reaches the transport. -/
def interceptOutgoing (store : TokenStore) (r : HttpReq) : HttpReq :=
  if shouldAddToken r then addAuthToken store r else r

/-- Coordinator state of the bearer interceptor plus the observable
bookkeeping of its 401 flow:
- isRefreshing mirrors the private isRefreshing flag,
- subjectVal mirrors the current value of refreshTokenSubject
  (BehaviorSubject of string or null),
- waiters are the requests whose handle401Error returned the
  subjectVal-filtered pipe and that are still suspended on it, in
  subscription (enqueue) order,
- original is the request captured by the closure that started the
  in-flight refresh,
- refreshCalls counts subscriptions to authService.refreshToken(),
- store is the bearer TokenService state,
- loggedOut records that authService.logout() has been invoked,
- failed lists requests resolved with a thrown error, in order,
- issued lists requests handed to next.handle for (re-)execution, in
  the order the subscriptions fire. -/
structure CoordState where
  isRefreshing : Bool
  subjectVal : Option String
  waiters : List HttpReq
  original : Option HttpReq
  refreshCalls : Nat
  store : TokenStore
  loggedOut : Bool
  failed : List HttpReq
  issued : List HttpReq
deriving Repr, DecidableEq

/-- Modelled from the spec: the bearer-token AuthService is not under
src/ (only the repository docs describe it).  Per those docs its logout
clears the stored tokens through TokenService.clearTokens, leaving the
session unauthenticated. -/
def logoutApply (s : TokenStore) : TokenStore :=
  s.clearTokens

/-- Modelled from the spec: the bearer-token AuthService.refreshToken
(absent from src/) stores the renewed token pair through
TokenService.setTokens before the interceptor's success callback runs, so
retries read the refreshed credential from the store. -/
def refreshApply (s : TokenStore) (accessToken refreshToken : String) : TokenStore :=
  s.setTokens accessToken refreshToken none 0

/-- AuthInterceptor.handle401Error (bearer variant), the synchronous part
that runs when a request fails with status 401:
- a URL containing '/auth/' is never retried: authService.logout() runs
  and the error is rethrown to the caller;
- otherwise, if no refresh is in flight: isRefreshing becomes true, the
  subject is reset to null, and authService.refreshToken() is subscribed
  (one renewal call), capturing this request for the later retry;
- otherwise the request is left suspended on the subject pipe
  (filter non-null, take 1), i.e. appended to the waiters. -/
def handle401 (s : CoordState) (r : HttpReq) : CoordState :=
  if strContains r.url "/auth/" then
    { s with store := logoutApply s.store, loggedOut := true, failed := s.failed ++ [r] }
  else if s.isRefreshing = false then
    { s with isRefreshing := true, subjectVal := none,
             refreshCalls := s.refreshCalls + 1, original := some r }
  else
    { s with waiters := s.waiters ++ [r] }

/-- The switchMap callback of the in-flight refresh (bearer variant), run
when authService.refreshToken() emits: the store already holds the
renewed tokens (refreshApply), isRefreshing is cleared, and
refreshTokenSubject.next(access_token) fires.  The next() call
synchronously resumes every suspended waiter, each retrying through
next.handle(addAuthToken(request)) in subscription (FIFO) order; only
after next() returns does the callback reach its own
next.handle(addAuthToken(request)) for the original request, so the
original request is issued after all waiters. -/
def refreshSuccess (s : CoordState) (accessToken refreshToken : String) : CoordState :=
  let store' := refreshApply s.store accessToken refreshToken
  let replay := s.waiters ++ s.original.toList
  { s with isRefreshing := false, subjectVal := some accessToken,
           waiters := [], original := none, store := store',
           issued := s.issued ++ replay.map (fun r => addAuthToken store' r) }

/-- The catchError callback of the in-flight refresh (bearer variant), run
when authService.refreshToken() errors: isRefreshing is cleared,
refreshTokenSubject.next(null) fires, authService.logout() runs, and the
refresh error is rethrown to the original request's caller.  The waiters
are untouched: their pipe filters out the null emission, so none of them
is resumed or failed here. -/
def refreshFailure (s : CoordState) : CoordState :=
  { s with isRefreshing := false, subjectVal := none,
           store := logoutApply s.store, loggedOut := true,
           failed := s.failed ++ s.original.toList, original := none }

/-- Coordinator state of the cookie-variant interceptor: refreshDone
mirrors the BehaviorSubject of booleans, session the cookie TokenService
state; the remaining fields are as in CoordState. -/
structure CookieCoordState where
  isRefreshing : Bool
  refreshDone : Bool
  waiters : List HttpReq
  original : Option HttpReq
  refreshCalls : Nat
  session : AuthSession
  failed : List HttpReq
  issued : List HttpReq
deriving Repr, DecidableEq

/-- AuthInterceptor.handle401Error (cookie variant): a URL containing
'/auth/' clears the auth state via tokenService.clearAuthState() and
rethrows; otherwise the single-flight bookkeeping matches the bearer
variant. -/
def cookieHandle401 (s : CookieCoordState) (r : HttpReq) : CookieCoordState :=
  if strContains r.url "/auth/" then
    { s with session := s.session.clearAuthState, failed := s.failed ++ [r] }
  else if s.isRefreshing = false then
    { s with isRefreshing := true, refreshDone := false,
             refreshCalls := s.refreshCalls + 1, original := some r }
  else
    { s with waiters := s.waiters ++ [r] }

/-- A value found under a key of an error.errors object: an array of
strings, a single string, or anything else (ignored by the extractor). -/
inductive ErrVal where
  | arr (xs : List String)
  | str (s : String)
  | other
deriving Repr, DecidableEq

/-- The error.error payload of an HttpErrorResponse as handle400Error and
handleUnknownError inspect it: absent (falsy), a plain string, an object
with optional message and errors fields, or a client-side ErrorEvent
carrying a message.  A JavaScript-falsy message field (absent or the
empty string) is modelled as none; an errors field that is present but
empty is some []. -/
inductive ErrBody where
  | absent
  | str (s : String)
  | obj (message : Option String) (errors : Option (List (String × ErrVal)))
  | clientEvent (m : String)
deriving Repr, DecidableEq

/-- An HttpErrorResponse: its status, payload, and top-level message. -/
structure HttpErrResp where
  status : Nat
  body : ErrBody
  message : String
deriving Repr, DecidableEq

/-- AuthInterceptor.extractValidationErrors: walk the keys of the errors
object in order; push every element of an array value, push a string
value, skip anything else. -/
def extractValidationErrors (errors : List (String × ErrVal)) : List String :=
  errors.foldl
    (fun messages kv =>
      match kv.2 with
      | ErrVal.arr xs => messages ++ xs
      | ErrVal.str s => messages ++ [s]
      | ErrVal.other => messages)
    []

/-- The message selected by AuthInterceptor.handle400Error: a string body
is used directly, an object's message field wins when truthy, otherwise a
present errors field yields the joined validation messages, and anything
else falls back to the default text.  An ErrorEvent body hits the
message branch through its own message property. -/
def handle400Message (body : ErrBody) : String :=
  match body with
  | ErrBody.absent => "Bad Request: Invalid data provided"
  | ErrBody.str s => s
  | ErrBody.obj (some m) _ => m
  | ErrBody.obj none (some errs) =>
      "Validation failed: " ++ String.intercalate ", " (extractValidationErrors errs)
  | ErrBody.obj none none => "Bad Request: Invalid data provided"
  | ErrBody.clientEvent m => m

/-- The errors field of the object handle400Error throws:
error.error?.errors with a fallback to the empty array. -/
def handle400ErrorsField (body : ErrBody) : List (String × ErrVal) :=
  match body with
  | ErrBody.obj _ (some errs) => errs
  | _ => []

/-- The message selected by AuthInterceptor.handle5xxError for the three
statuses its switch reaches. -/
def handle5xxMessage (status : Nat) : String :=
  if status = 502 then "Bad Gateway: Server is temporarily unavailable"
  else if status = 503 then "Service Unavailable: Server is under maintenance"
  else "Server error occurred. Please try again later."

/-- The message selected by AuthInterceptor.handleUnknownError: a
client-side ErrorEvent yields a network-error text, otherwise a truthy
top-level message is used, else the default text. -/
def handleUnknownMessage (e : HttpErrResp) : String :=
  match e.body with
  | ErrBody.clientEvent m => "Network Error: " ++ m
  | _ => if e.message = "" then "An unexpected error occurred" else e.message

/-- The classified failure a non-recovered error surfaces as, matching
the object each handler passes to throwError.  The names follow the
spec's taxonomy; each constructor carries what the thrown object
carries. -/
inductive FailureKind where
  | validation (message : String) (errors : List (String × ErrVal))
  | permission (message : String)
  | notFound (message : String)
  | server (status : Nat) (message : String)
  | unknown (status : Nat) (message : String)
deriving Repr, DecidableEq

/-- What AuthInterceptor.handleError does with an error: either it is
surfaced to the caller as a classified failure, or (status 401 only) it
enters the asynchronous refresh flow. -/
inductive InterceptOutcome where
  | failure (k : FailureKind)
  | authFlow
deriving Repr, DecidableEq

/-- AuthInterceptor.handleError: dispatch on the status.  400, 403, 404,
500, 502, 503 and the default case each rethrow a classified failure
without touching the coordinator state; only 401 runs handle401Error. -/
def handleErrorStep (s : CoordState) (r : HttpReq) (e : HttpErrResp) :
    CoordState × InterceptOutcome :=
  if e.status = 400 then
    (s, InterceptOutcome.failure
      (FailureKind.validation (handle400Message e.body) (handle400ErrorsField e.body)))
  else if e.status = 401 then
    (handle401 s r, InterceptOutcome.authFlow)
  else if e.status = 403 then
    (s, InterceptOutcome.failure
      (FailureKind.permission
        "Access Forbidden: You do not have permission to access this resource"))
  else if e.status = 404 then
    (s, InterceptOutcome.failure (FailureKind.notFound "Resource not found"))
  else if e.status = 500 ∨ e.status = 502 ∨ e.status = 503 then
    (s, InterceptOutcome.failure (FailureKind.server e.status (handle5xxMessage e.status)))
  else
    (s, InterceptOutcome.failure (FailureKind.unknown e.status (handleUnknownMessage e)))

/-- True iff an outcome is a ServerFailure classification. -/
def InterceptOutcome.isServer : InterceptOutcome → Bool
  | InterceptOutcome.failure (FailureKind.server _ _) => true
  | _ => false

/-- A product as the cart stores it: identity and unit price (the other
Product fields never influence the cart arithmetic). -/
structure Product where
  id : Nat
  price : Int
deriving Repr, DecidableEq

/-- A cart line item: the stored product, its quantity, and the cached
subtotal (cart.interface.ts). -/
structure CartItem where
  product : Product
  quantity : Int
  subtotal : Int
deriving Repr, DecidableEq

/-- The stored cart: items plus the cached totals.  The two Date fields
of the source are clock reads that never influence any computation and
are omitted. -/
structure Cart where
  items : List CartItem
  totalItems : Int
  totalAmount : Int
deriving Repr, DecidableEq

/-- The reduce over quantities in CartService.updateCart. -/
def sumQuantities (items : List CartItem) : Int :=
  items.foldl (fun sum it => sum + it.quantity) 0

/-- The reduce over subtotals in CartService.updateCart. -/
def sumSubtotals (items : List CartItem) : Int :=
  items.foldl (fun sum it => sum + it.subtotal) 0

/-- CartService.updateCart: store the new item list and recompute both
totals from it. -/
def updateCart (c : Cart) (items : List CartItem) : Cart :=
  { items := items
    totalItems := sumQuantities items
    totalAmount := sumSubtotals items }

/-- The item-list update of CartService.addToCart: findIndex on the
product id, then either merge into the first matching item (new quantity
added, subtotal recomputed as the merged quantity times the argument
product's price, the stored product object kept) or append a fresh item.
The recursion updates the first match exactly as findIndex plus an
indexed assignment does. -/
def addItem (p : Product) (quantity : Int) : List CartItem → List CartItem
  | [] => [{ product := p, quantity := quantity, subtotal := p.price * quantity }]
  | it :: rest =>
    if it.product.id = p.id then
      { it with quantity := it.quantity + quantity,
                subtotal := (it.quantity + quantity) * p.price } :: rest
    else
      it :: addItem p quantity rest

/-- CartService.addToCart. -/
def addToCart (c : Cart) (p : Product) (quantity : Int) : Cart :=
  updateCart c (addItem p quantity c.items)

/-- CartService.removeFromCart: drop every item with the given product
id. -/
def removeFromCart (c : Cart) (productId : Nat) : Cart :=
  updateCart c (c.items.filter fun it => it.product.id ≠ productId)

/-- CartService.updateQuantity: a non-positive quantity removes the item;
otherwise the matching items get the new quantity and a subtotal
recomputed from the stored product's price. -/
def updateQuantity (c : Cart) (productId : Nat) (quantity : Int) : Cart :=
  if quantity ≤ 0 then
    removeFromCart c productId
  else
    updateCart c (c.items.map fun it =>
      if it.product.id = productId then
        { it with quantity := quantity, subtotal := it.product.price * quantity }
      else it)

/-- CartService.clearCart: reset to the empty cart with zero totals. -/
def clearCart : Cart :=
  { items := [], totalItems := 0, totalAmount := 0 }

/-- A line item caches the product of its stored price and quantity. -/
def itemWellPriced (it : CartItem) : Prop :=
  it.subtotal = it.product.price * it.quantity

instance (it : CartItem) : Decidable (itemWellPriced it) := by
  unfold itemWellPriced
  infer_instance

/-- Every line item of the list caches a consistent subtotal. -/
def itemsWellPriced (items : List CartItem) : Prop :=
  ∀ it ∈ items, itemWellPriced it

instance (items : List CartItem) : Decidable (itemsWellPriced items) := by
  unfold itemsWellPriced
  infer_instance

/-- The cached cart totals agree with the item list. -/
def totalsConsistent (c : Cart) : Prop :=
  c.totalItems = sumQuantities c.items ∧ c.totalAmount = sumSubtotals c.items

/-- The AuthSession invariant of the spec: a stored profile implies the
authenticated flag. -/
def SessionInv (s : AuthSession) : Prop :=
  s.userInfo ≠ none → s.isAuthenticated = true

instance (s : AuthSession) : Decidable (SessionInv s) := by
  unfold SessionInv
  infer_instance

instance (c : Cart) : Decidable (totalsConsistent c) := by
  unfold totalsConsistent
  infer_instance

/-! Concrete fixtures used by witnesses and counterexamples. -/

/-- Bearer TokenService state with empty localStorage. -/
def storeInit : TokenStore :=
  { access := none, refresh := none, expiry := none, isAuthenticated := false }

/-- A fresh bearer-interceptor coordinator: isRefreshing false, subject at
null, nothing queued, no renewal call made. -/
def coordInit : CoordState :=
  { isRefreshing := false, subjectVal := none, waiters := [], original := none,
    refreshCalls := 0, store := storeInit, loggedOut := false, failed := [], issued := [] }

/-- A fresh cookie-interceptor coordinator. -/
def cookieInit : CookieCoordState :=
  { isRefreshing := false, refreshDone := false, waiters := [], original := none,
    refreshCalls := 0, session := { userInfo := none, isAuthenticated := false },
    failed := [], issued := [] }

/-- The cookie AuthSession at application start: unauthenticated, no
profile. -/
def sessionInit : AuthSession :=
  { userInfo := none, isAuthenticated := false }

/-- A non-exempt application request. -/
def reqOrders : HttpReq :=
  { url := "https://api.example.com/api/orders", authHeader := none }

/-- A second non-exempt application request. -/
def reqCarts : HttpReq :=
  { url := "https://api.example.com/api/carts", authHeader := none }

/-- A request to the exempt external API. -/
def reqFakestore : HttpReq :=
  { url := "https://fakestoreapi.com/products", authHeader := none }

/-- The renewal call itself. -/
def reqAuthRefresh : HttpReq :=
  { url := "https://your-backend-api.com/auth/refresh", authHeader := none }

/-! Helper lemmas about the 401 flow. -/

/-- While a refresh is in flight, a further non-auth 401 only appends the
request to the waiters. -/
theorem handle401_waiting (s : CoordState) (r : HttpReq)
    (hr : s.isRefreshing = true) (h : strContains r.url "/auth/" = false) :
    handle401 s r = { s with waiters := s.waiters ++ [r] } := by
  simp [handle401, h, hr]

/-- Folding further non-auth 401s over an in-flight state appends them all
to the waiters, in order, and changes nothing else. -/
theorem foldl_handle401_waiting (reqs : List HttpReq) (s : CoordState)
    (hr : s.isRefreshing = true)
    (hall : ∀ r ∈ reqs, strContains r.url "/auth/" = false) :
    List.foldl handle401 s reqs = { s with waiters := s.waiters ++ reqs } := by
  induction reqs generalizing s with
  | nil => simp
  | cons r rest ih =>
    rw [List.foldl_cons, handle401_waiting s r hr (hall r (by simp))]
    rw [ih { s with waiters := s.waiters ++ [r] } hr (fun x hx => hall x (by simp [hx]))]
    simp

/-- C1: single-flight renewal.  Processing any list of at least two
non-auth requests that all fail with status 401 while no renewal is in
flight issues exactly one call to authService.refreshToken, regardless of
the number of requests; every request after the first finds isRefreshing
true and is enqueued as a waiter instead of starting a second renewal. -/
theorem singleFlight_renewal (s0 : CoordState) (reqs : List HttpReq)
    (h0 : s0.isRefreshing = false) (hn : 2 ≤ reqs.length)
    (hall : ∀ r ∈ reqs, strContains r.url "/auth/" = false) :
    (List.foldl handle401 s0 reqs).refreshCalls = s0.refreshCalls + 1 ∧
    (List.foldl handle401 s0 reqs).waiters = s0.waiters ++ reqs.tail := by
  match reqs, hn with
  | r :: rest, _ =>
    have hstart : handle401 s0 r =
        { s0 with isRefreshing := true, subjectVal := none,
                  refreshCalls := s0.refreshCalls + 1, original := some r } := by
      simp [handle401, hall r (by simp), h0]
    rw [List.foldl_cons, hstart,
        foldl_handle401_waiting rest _ rfl (fun x hx => hall x (by simp [hx]))]
    simp

/-- Witness for C1 at two concrete requests. -/
theorem singleFlight_renewal_witness :
    (List.foldl handle401 coordInit [reqOrders, reqCarts]).refreshCalls =
      coordInit.refreshCalls + 1 ∧
    (List.foldl handle401 coordInit [reqOrders, reqCarts]).waiters =
      coordInit.waiters ++ [reqCarts] := by
  have h := singleFlight_renewal coordInit [reqOrders, reqCarts]
    (by decide) (by decide) (by decide)
  simpa using h

/-- The episode behind C2: two non-auth requests fail with 401 (the first
starts the refresh, the second becomes a waiter), then the refresh call
itself fails. -/
def stuckEpisode : CoordState :=
  refreshFailure (List.foldl handle401 coordInit [reqOrders, reqCarts])

/-- C2: the claim says every waiter queued during a failed renewal is
failed with the renewal's terminal error.  The code instead errors only
the original request: after the refresh failure the waiter is still
queued on the subject pipe (which filtered out the null emission), was
never handed to the transport, and never received an error — with
isRefreshing back to false and the subject at null, no pending event of
the episode can ever resume it. -/
theorem renewalFailure_waiter_stuck :
    stuckEpisode.waiters = [reqCarts] ∧
    stuckEpisode.failed = [reqOrders] ∧
    stuckEpisode.issued = [] ∧
    stuckEpisode.isRefreshing = false ∧
    stuckEpisode.subjectVal = none := by
  decide

/-- The state behind C3's counterexample: a refresh is in flight for
reqOrders and reqCarts waits on it. -/
def replayState : CoordState :=
  List.foldl handle401 coordInit [reqOrders, reqCarts]

/-- C3 counterexample: after the renewal succeeds, the first request
handed back to the transport is the queued waiter, not the original
request that started the renewal — the claim's replay order (original
first, then waiters) is false on the code. -/
theorem replayOrder_counterexample :
    ((refreshSuccess replayState "tok2" "ref2").issued).map HttpReq.url =
      [reqCarts.url, reqOrders.url] ∧
    reqCarts.url ≠ reqOrders.url := by
  decide

/-- C3 amended: on renewal success the queued waiters are re-issued
exactly once each, with the refreshed credential, in the FIFO order they
were enqueued, and the original failing request is then re-issued exactly
once with the refreshed credential, after all waiters (the subject
emission resumes the waiters synchronously before the success callback
reaches the original request's retry). -/
theorem replayOrder_waiters_then_original (s : CoordState) (a rt : String)
    (r : HttpReq) (h : s.original = some r) :
    (refreshSuccess s a rt).issued =
      s.issued ++ (s.waiters ++ [r]).map (addAuthToken (refreshApply s.store a rt)) ∧
    (refreshSuccess s a rt).waiters = [] := by
  simp [refreshSuccess, h]

/-- Witness for C3's amended replay order at a concrete episode. -/
theorem replayOrder_waiters_then_original_witness :
    (refreshSuccess replayState "tok2" "ref2").issued =
      replayState.issued ++
        ((replayState.waiters ++ [reqOrders]).map
          (addAuthToken (refreshApply replayState.store "tok2" "ref2"))) ∧
    (refreshSuccess replayState "tok2" "ref2").waiters = [] :=
  replayOrder_waiters_then_original replayState "tok2" "ref2" reqOrders (by decide)

/-- C4 counterexample: a 401 on the exempt fakestoreapi.com URL does
trigger a renewal call — handle401Error only skips renewal for URLs
containing '/auth/', so from a fresh coordinator the renewal counter
rises from 0 to 1, contradicting the claim that exempt requests never
trigger renewal. -/
theorem exemptRenewal_counterexample :
    (handle401 coordInit reqFakestore).refreshCalls = 1 ∧
    coordInit.refreshCalls = 0 := by
  decide

/-- C4 amended: a request matching the exempt list never has a credential
attached on its initial execution (it reaches the transport unchanged),
but a 401 response to an exempt request whose URL does not contain
'/auth/' enters the ordinary renewal path: when no renewal is in flight,
a renewal call is issued rather than the failure being surfaced as-is. -/
theorem exemptBypass_amended (store : TokenStore) (s : CoordState) (r : HttpReq)
    (hex : strContains r.url "fakestoreapi.com" = true)
    (hna : strContains r.url "/auth/" = false)
    (hnr : s.isRefreshing = false) :
    interceptOutgoing store r = r ∧
    (handle401 s r).refreshCalls = s.refreshCalls + 1 := by
  constructor
  · have hs : shouldAddToken r = false := by
      simp [shouldAddToken, EXCLUDED_URLS, hex]
    simp [interceptOutgoing, hs]
  · simp [handle401, hna, hnr]

/-- Witness for C4's amended claim at the concrete fakestoreapi request. -/
theorem exemptBypass_amended_witness :
    interceptOutgoing storeInit reqFakestore = reqFakestore ∧
    (handle401 coordInit reqFakestore).refreshCalls = coordInit.refreshCalls + 1 :=
  exemptBypass_amended storeInit coordInit reqFakestore
    (by decide) (by decide) (by decide)

/-- C5: a 401 on a request whose URL contains '/auth/' (the renewal or
login call itself) never starts another renewal in either interceptor
variant: the renewal counter is unchanged, the session is cleared (bearer
variant through authService.logout clearing the stored tokens, cookie
variant through tokenService.clearAuthState), and the failure is
propagated to the caller. -/
theorem authEndpoint_noRecursiveRenewal (sb : CoordState) (sc : CookieCoordState)
    (r : HttpReq) (h : strContains r.url "/auth/" = true) :
    (handle401 sb r).refreshCalls = sb.refreshCalls ∧
    (handle401 sb r).loggedOut = true ∧
    (handle401 sb r).store.isAuthenticated = false ∧
    (handle401 sb r).store.access = none ∧
    (handle401 sb r).failed = sb.failed ++ [r] ∧
    (cookieHandle401 sc r).refreshCalls = sc.refreshCalls ∧
    (cookieHandle401 sc r).session = { userInfo := none, isAuthenticated := false } ∧
    (cookieHandle401 sc r).failed = sc.failed ++ [r] := by
  simp [handle401, cookieHandle401, h, logoutApply,
        TokenStore.clearTokens, AuthSession.clearAuthState]

/-- Witness for C5 at the concrete refresh endpoint. -/
theorem authEndpoint_noRecursiveRenewal_witness :
    (handle401 coordInit reqAuthRefresh).refreshCalls = coordInit.refreshCalls ∧
    (handle401 coordInit reqAuthRefresh).loggedOut = true ∧
    (handle401 coordInit reqAuthRefresh).store.isAuthenticated = false ∧
    (handle401 coordInit reqAuthRefresh).store.access = none ∧
    (handle401 coordInit reqAuthRefresh).failed = coordInit.failed ++ [reqAuthRefresh] ∧
    (cookieHandle401 cookieInit reqAuthRefresh).refreshCalls = cookieInit.refreshCalls ∧
    (cookieHandle401 cookieInit reqAuthRefresh).session =
      { userInfo := none, isAuthenticated := false } ∧
    (cookieHandle401 cookieInit reqAuthRefresh).failed =
      cookieInit.failed ++ [reqAuthRefresh] :=
  authEndpoint_noRecursiveRenewal coordInit cookieInit reqAuthRefresh (by decide)

/-- A 504 Gateway Timeout error response. -/
def err504 : HttpErrResp :=
  { status := 504, body := ErrBody.absent,
    message := "Http failure response for /api/orders: 504 Gateway Timeout" }

/-- A 400 response carrying structured validation errors. -/
def err400 : HttpErrResp :=
  { status := 400,
    body := ErrBody.obj none (some [("email", ErrVal.arr ["Email is required"])]),
    message := "Http failure response for /api/orders: 400 Bad Request" }

/-- C6 counterexample: 504 is a 5xx status, yet the switch in handleError
has no case for it, so it falls to the default handler and is classified
as an UnknownFailure, not a ServerFailure — the claim that every 5xx
status maps to ServerFailure is false on the code. -/
theorem serverClassification_counterexample :
    (handleErrorStep coordInit reqOrders err504).2.isServer = false ∧
    500 ≤ err504.status ∧ err504.status < 600 ∧
    (handleErrorStep coordInit reqOrders err504).2 =
      InterceptOutcome.failure (FailureKind.unknown 504 err504.message) := by
  decide

/-- C6 amended: every non-401 failure is classified by status — 400 as a
ValidationFailure carrying the extracted structured field-level errors,
403 as PermissionFailure, 404 as NotFoundFailure, exactly the statuses
500, 502 and 503 as ServerFailure, and every other status (including the
remaining 5xx codes such as 501 and 504) as UnknownFailure — and is
always surfaced to the caller as a thrown classified failure, with the
coordinator state untouched: no retry and no renewal is triggered. -/
theorem errorClassification (s : CoordState) (r : HttpReq) (e : HttpErrResp)
    (h401 : e.status ≠ 401) :
    (handleErrorStep s r e).1 = s ∧
    (∃ k, (handleErrorStep s r e).2 = InterceptOutcome.failure k) ∧
    (e.status = 400 →
      (handleErrorStep s r e).2 = InterceptOutcome.failure
        (FailureKind.validation (handle400Message e.body) (handle400ErrorsField e.body))) ∧
    (e.status = 403 →
      (handleErrorStep s r e).2 = InterceptOutcome.failure
        (FailureKind.permission
          "Access Forbidden: You do not have permission to access this resource")) ∧
    (e.status = 404 →
      (handleErrorStep s r e).2 = InterceptOutcome.failure
        (FailureKind.notFound "Resource not found")) ∧
    (e.status = 500 ∨ e.status = 502 ∨ e.status = 503 →
      (handleErrorStep s r e).2 = InterceptOutcome.failure
        (FailureKind.server e.status (handle5xxMessage e.status))) ∧
    (e.status ≠ 400 → e.status ≠ 403 → e.status ≠ 404 →
      e.status ≠ 500 → e.status ≠ 502 → e.status ≠ 503 →
      (handleErrorStep s r e).2 = InterceptOutcome.failure
        (FailureKind.unknown e.status (handleUnknownMessage e))) := by
  refine ⟨?_, ?_, ?_, ?_, ?_, ?_, ?_⟩
  · unfold handleErrorStep
    split_ifs with h1 h2 h3 h4 h5 <;> first | rfl | exact absurd h2 h401
  · unfold handleErrorStep
    split_ifs with h1 h2 h3 h4 h5 <;> first | exact ⟨_, rfl⟩ | exact absurd h2 h401
  · intro h
    simp [handleErrorStep, h]
  · intro h
    simp [handleErrorStep, h]
  · intro h
    simp [handleErrorStep, h]
  · intro h
    rcases h with h | h | h <;> simp [handleErrorStep, h]
  · intro h1 h2 h3 h4 h5 h6
    simp [handleErrorStep, h1, h401, h2, h3, h4, h5, h6]

/-- Witness for C6's amended classification at a concrete 400 response
with structured validation errors. -/
theorem errorClassification_witness :
    (handleErrorStep coordInit reqOrders err400).1 = coordInit ∧
    (handleErrorStep coordInit reqOrders err400).2 = InterceptOutcome.failure
      (FailureKind.validation "Validation failed: Email is required"
        [("email", ErrVal.arr ["Email is required"])]) := by
  have h := errorClassification coordInit reqOrders err400 (by decide)
  refine ⟨h.1, ?_⟩
  have h400 := h.2.2.1 rfl
  rw [h400]
  decide

/-- C7 counterexample: from the invariant-satisfying state reached by
setUserInfo, the checkAuthStatus error path (setAuthenticated false)
leaves the profile stored while clearing the authenticated flag — the
claimed preservation of the AuthSession invariant by every mutating
operation is false on the code. -/
theorem sessionInvariant_counterexample :
    SessionInv (AuthSession.setUserInfo sessionInit 7) ∧
    ¬ SessionInv ((AuthSession.setUserInfo sessionInit 7).setAuthenticated false) := by
  decide

/-- C7 amended: setUserInfo, clearAuthState and setAuthenticated(true)
preserve the invariant (profile stored implies authenticated) from any
state, as does the checkAuthStatus success path; the checkAuthStatus
error path (setAuthenticated false) preserves it only when no profile is
stored — from a state with a stored profile it produces a state that
violates the invariant. -/
theorem sessionInvariant_amended (s : AuthSession) (u : Nat) (h : SessionInv s) :
    SessionInv (s.setUserInfo u) ∧
    SessionInv s.clearAuthState ∧
    SessionInv (s.setAuthenticated true) ∧
    (s.userInfo = none → SessionInv (s.setAuthenticated false)) ∧
    SessionInv (checkAuthStatusStep s (some u)) ∧
    (s.userInfo = none → SessionInv (checkAuthStatusStep s none)) := by
  refine ⟨?_, ?_, ?_, ?_, ?_, ?_⟩ <;>
    simp [SessionInv, AuthSession.setUserInfo, AuthSession.clearAuthState,
          AuthSession.setAuthenticated, checkAuthStatusStep]

/-- Witness for C7's amended claim at a concrete authenticated session. -/
theorem sessionInvariant_amended_witness :
    SessionInv (sessionInit.setUserInfo 7) ∧
    SessionInv sessionInit.clearAuthState ∧
    SessionInv (sessionInit.setAuthenticated true) ∧
    (sessionInit.userInfo = none → SessionInv (sessionInit.setAuthenticated false)) ∧
    SessionInv (checkAuthStatusStep sessionInit (some 7)) ∧
    (sessionInit.userInfo = none → SessionInv (checkAuthStatusStep sessionInit none)) :=
  sessionInvariant_amended sessionInit 7 (by decide)

/-- C8: the terminal-failure path is idempotent on the session state —
clearAuthState twice equals clearAuthState once, clearTokens twice equals
clearTokens once, and running the whole renewal-failure handler a second
time leaves the coordinator state exactly as after the first run. -/
theorem clearSession_idempotent (s : AuthSession) (t : TokenStore) (c : CoordState) :
    (s.clearAuthState).clearAuthState = s.clearAuthState ∧
    (t.clearTokens).clearTokens = t.clearTokens ∧
    refreshFailure (refreshFailure c) = refreshFailure c := by
  refine ⟨rfl, rfl, ?_⟩
  simp [refreshFailure, logoutApply, TokenStore.clearTokens]

/-! Helper lemmas about the cart operations. -/

/-- updateCart recomputes both cached totals from the item list it
stores, so the resulting cart's totals are consistent by construction. -/
theorem totalsConsistent_updateCart (c : Cart) (items : List CartItem) :
    totalsConsistent (updateCart c items) :=
  ⟨rfl, rfl⟩

/-- addItem keeps every cached subtotal consistent, provided any product
merged into an existing line carries the same price as the stored
product (the source recomputes the merged subtotal from the argument's
price while keeping the stored product object). -/
theorem itemsWellPriced_addItem (p : Product) (q : Int) (items : List CartItem)
    (hI : itemsWellPriced items)
    (hP : ∀ it ∈ items, it.product.id = p.id → it.product.price = p.price) :
    itemsWellPriced (addItem p q items) := by
  induction items with
  | nil =>
    intro it hit
    simp only [addItem, List.mem_singleton] at hit
    subst hit
    rfl
  | cons a rest ih =>
    intro it hit
    simp only [addItem] at hit
    by_cases hid : a.product.id = p.id
    · rw [if_pos hid] at hit
      rcases List.mem_cons.mp hit with h1 | h2
      · subst h1
        have hpr : a.product.price = p.price := hP a (by simp) hid
        show (a.quantity + q) * p.price = a.product.price * (a.quantity + q)
        rw [hpr, mul_comm]
      · exact hI it (List.mem_cons_of_mem a h2)
    · rw [if_neg hid] at hit
      rcases List.mem_cons.mp hit with h1 | h2
      · subst h1
        exact hI it (by simp)
      · exact ih (fun x hx => hI x (by simp [hx]))
          (fun x hx hxid => hP x (by simp [hx]) hxid) it h2

/-- Filtering a list of consistent items keeps every survivor
consistent. -/
theorem itemsWellPriced_filter (items : List CartItem) (f : CartItem → Bool)
    (hI : itemsWellPriced items) : itemsWellPriced (items.filter f) := by
  intro it hit
  exact hI it (List.mem_of_mem_filter hit)

/-- The quantity-rewriting map of updateQuantity keeps every cached
subtotal consistent: a rewritten item gets its subtotal recomputed from
its own stored price, an untouched item was consistent already. -/
theorem itemsWellPriced_setQuantity (items : List CartItem) (pid : Nat) (q : Int)
    (hI : itemsWellPriced items) :
    itemsWellPriced (items.map fun it =>
      if it.product.id = pid then
        { it with quantity := q, subtotal := it.product.price * q }
      else it) := by
  intro it hit
  rcases List.mem_map.mp hit with ⟨a, ha, rfl⟩
  by_cases hid : a.product.id = pid
  · rw [if_pos hid]
    rfl
  · rw [if_neg hid]
    exact hI a ha

/-- The pricing fixtures of C9's counterexample: two products sharing the
id 1 but carrying different prices. -/
def productTen : Product := { id := 1, price := 10 }

/-- The second product of C9's counterexample. -/
def productTwenty : Product := { id := 1, price := 20 }

/-- C9 counterexample: adding a product whose id already sits in the cart
but whose price differs recomputes the merged subtotal from the
argument's price while keeping the stored product, so the resulting item
caches subtotal 40 against a stored price of 10 and quantity 2 — the
per-item part of the claimed invariant is false after this addToCart,
even though the cached totals still match the item list. -/
theorem cartSubtotal_counterexample :
    itemsWellPriced (addToCart clearCart productTen 1).items ∧
    ¬ itemsWellPriced (addToCart (addToCart clearCart productTen 1) productTwenty 1).items ∧
    totalsConsistent (addToCart (addToCart clearCart productTen 1) productTwenty 1) := by
  decide

/-- C9 amended: after every cart mutation through addToCart,
removeFromCart, updateQuantity and clearCart, the stored totals equal the
sums over the item list; and every item's cached subtotal equals its
stored product's price times its quantity, provided each addToCart call
that merges into an existing line passes a product whose price equals the
stored product's price (addToCart recomputes the merged subtotal from the
argument product's price while keeping the stored product object). -/
theorem cartInvariant_amended (c : Cart) (p : Product) (q : Int) (pid : Nat)
    (hI : itemsWellPriced c.items)
    (hP : ∀ it ∈ c.items, it.product.id = p.id → it.product.price = p.price) :
    totalsConsistent (addToCart c p q) ∧
    itemsWellPriced (addToCart c p q).items ∧
    totalsConsistent (removeFromCart c pid) ∧
    itemsWellPriced (removeFromCart c pid).items ∧
    totalsConsistent (updateQuantity c pid q) ∧
    itemsWellPriced (updateQuantity c pid q).items ∧
    totalsConsistent clearCart ∧
    itemsWellPriced clearCart.items := by
  refine ⟨totalsConsistent_updateCart _ _,
          itemsWellPriced_addItem p q c.items hI hP,
          totalsConsistent_updateCart _ _,
          itemsWellPriced_filter _ _ hI,
          ?_, ?_, ⟨rfl, rfl⟩, ?_⟩
  · unfold updateQuantity
    split_ifs with hq
    · exact totalsConsistent_updateCart _ _
    · exact totalsConsistent_updateCart _ _
  · unfold updateQuantity
    split_ifs with hq
    · exact itemsWellPriced_filter _ _ hI
    · exact itemsWellPriced_setQuantity c.items pid q hI
  · intro it hit
    simp [clearCart] at hit

/-- Witness for C9's amended claim at a concrete one-item cart. -/
theorem cartInvariant_amended_witness :
    totalsConsistent (addToCart (addToCart clearCart productTen 2) productTen 1) ∧
    itemsWellPriced (addToCart (addToCart clearCart productTen 2) productTen 1).items ∧
    totalsConsistent (removeFromCart (addToCart clearCart productTen 2) 1) ∧
    itemsWellPriced (removeFromCart (addToCart clearCart productTen 2) 1).items ∧
    totalsConsistent (updateQuantity (addToCart clearCart productTen 2) 1 1) ∧
    itemsWellPriced (updateQuantity (addToCart clearCart productTen 2) 1 1).items ∧
    totalsConsistent clearCart ∧
    itemsWellPriced clearCart.items :=
  cartInvariant_amended (addToCart clearCart productTen 2) productTen 1 1
    (by decide) (by decide)

/-- C10: when no access token is stored, a non-exempt request is handed
to the transport completely unchanged — no Authorization header is
attached and the interceptor neither rejects nor fails it. -/
theorem missingToken_passthrough (store : TokenStore) (r : HttpReq)
    (htok : store.getAccessToken = none) (hadd : shouldAddToken r = true) :
    interceptOutgoing store r = r := by
  simp [interceptOutgoing, hadd, addAuthToken, htok]

/-- Witness for C10 at the empty store and a concrete non-exempt
request. -/
theorem missingToken_passthrough_witness :
    interceptOutgoing storeInit reqOrders = reqOrders :=
  missingToken_passthrough storeInit reqOrders (by decide) (by decide)
